import Mathlib

/-!
Verification development for the HotelOps backend (src/main.py, src/schemas.py):
a shallow embedding of the schema layer, the document-store adapter and the
domain operations, together with theorems settling the specification claims.

The store adapter (`database.py`: `db`, `create_document`, `get_documents`) is
imported by `src/main.py` but its source is not part of the repository snapshot;
it is modelled from the specification (§4.2 Document Store Adapter) below, with
each such definition marked "Modelled from the spec".

Python strings are modelled as Lean `String`; the string operations the code
uses (`str.lower`, `str.endswith`, slicing) are implemented over the character
list so that they evaluate on concrete inputs.
-/

namespace HotelOps

/-- Python `str.lower()` restricted to the character-wise lowering of each
character (sufficient for ASCII file names as used by the code). -/
def lowerStr (s : String) : String := String.mk (s.data.map Char.toLower)

/-- Python `str.endswith(pat)`: the last `pat.length` characters equal `pat`. -/
def endsWithStr (s pat : String) : Bool :=
  (s.data.reverse.take pat.data.length) == pat.data.reverse

/-- Split a character list at every occurrence of the separator `c`
(Python `str.split(c)` semantics: n separators yield n+1 groups). -/
def splitChar (c : Char) : List Char → List (List Char)
  | [] => [[]]
  | x :: xs =>
    match splitChar c xs with
    | [] => [[]]
    | g :: gs => if x = c then [] :: g :: gs else (x :: g) :: gs

/-- Email syntax check abstracting the `email-validator` grammar behind
pydantic's `EmailStr`: exactly one `@`, a nonempty local part, and a domain of
at least two nonempty dot-separated labels. Only the malformed/well-formed
verdict is relied on by the theorems below, not the exact grammar. -/
def isValidEmail (s : String) : Bool :=
  match splitChar '@' s.data with
  | [localPart, domain] =>
      !localPart.isEmpty && !domain.isEmpty &&
      (splitChar '.' domain).length ≥ 2 &&
      (splitChar '.' domain).all (fun p => !p.isEmpty)
  | _ => false

/-- Python slicing `s[:n]`. -/
def truncStr (n : Nat) (s : String) : String := String.mk (s.data.take n)

/-- A JSON-like value as held in a document record (a Python `dict` value):
string, number, `None`, a native store object-identifier, or a nested
mapping. -/
inductive Val where
  | vStr (s : String)
  | vNum (q : ℚ)
  | vNull
  | vOid (n : Nat)
  | vMap (m : List (String × Val))

/-- A document record: an ordered association list of field names to values
(a Python `dict`; records built by this development have distinct keys). -/
abbrev Record := List (String × Val)

/-- Python `d[key]` lookup: first binding of `key` wins. -/
def lookupField : Record → String → Option Val
  | [], _ => none
  | (k, v) :: rest, key => if k = key then some v else lookupField rest key

/-- Python `d[key] = v`: replace the first binding of `key` if present,
append a new binding otherwise. -/
def setField : Record → String → Val → Record
  | [], key, v => [(key, v)]
  | (k, w) :: rest, key, v =>
      if k = key then (key, v) :: rest else (k, w) :: setField rest key v

/-- Dump an optional string the way pydantic's `model_dump` does: `None`
becomes an explicit null. -/
def optStrVal : Option String → Val
  | some s => Val.vStr s
  | none => Val.vNull

/-- Modelled from the spec: the canonical string form of a native numeric
object identifier (§4.2: "any native binary/object identifier is converted to
its canonical string form before leaving this layer"), rendered in decimal. -/
def canonicalId (n : Nat) : String :=
  if n = 0 then "0"
  else String.mk ((Nat.digits 10 n).reverse.map (fun d => Char.ofNat (48 + d)))

/-- Decimal decoding, a left inverse of `canonicalId` used to prove that
distinct identifiers have distinct canonical string forms. -/
def decodeId (s : String) : Nat :=
  Nat.ofDigits 10 (s.data.reverse.map (fun c => c.toNat - 48))

/-- One persisted document: its store-assigned native object identifier plus
the record fields it was created with. -/
structure Doc where
  oid : Nat
  fields : Record

/-- Modelled from the spec: the document store (§4.2), with a monotone
identifier counter ("every entity instance, once persisted, is assigned
exactly one unique identifier by the store; the identifier is never reused")
and one document list per collection name. -/
structure Store where
  nextId : Nat
  colls : String → List Doc

/-- A store with no documents and no identifiers issued yet. -/
def emptyStore : Store := { nextId := 0, colls := fun _ => [] }

/-- Modelled from the spec: `createDocument(collectionName, record) ->
identifier` (§4.2). Assigns the next native identifier, appends the document
to the named collection, and returns the identifier's canonical string form
(the form the create endpoints echo back to the caller). -/
def create_document (col : String) (r : Record) (st : Store) : String × Store :=
  (canonicalId st.nextId,
   { nextId := st.nextId + 1,
     colls := fun c =>
       if c = col then st.colls c ++ [{ oid := st.nextId, fields := r }]
       else st.colls c })

/-- One equality condition of a query filter: `field = value` on a string
value (the shape `src/main.py` builds: a MongoDB clause of the form
`\x7b"phone": q\x7d`). -/
inductive QueryCond where
  | eqStr (field : String) (value : String)

/-- Modelled from the spec: the filter shapes the domain layer passes to
`getDocuments` (§4.2/§6): either no filter, or a logical OR of exact
string-equality conditions. -/
inductive QueryFilter where
  | noFilter
  | orConds (cs : List QueryCond)

/-- Evaluate one equality condition against a record: matches when the field
is present and holds exactly that string (a null or absent field never
matches). -/
def matchCond (fields : Record) : QueryCond → Bool
  | QueryCond.eqStr f v =>
    match lookupField fields f with
    | some (Val.vStr s) => s == v
    | _ => false

/-- Evaluate a filter against a record's fields. -/
def matchesFilter (fields : Record) : QueryFilter → Bool
  | QueryFilter.noFilter => true
  | QueryFilter.orConds cs => cs.any (matchCond fields)

/-- Modelled from the spec: `getDocuments(collectionName, filter, limit)`
(§4.2): the matching documents in insertion order, at most `limit` of them,
each returned with its native `_id` prepended to the stored fields (as the
MongoDB driver returns documents). -/
def get_documents (col : String) (filt : QueryFilter) (limit : Nat)
    (st : Store) : List Record :=
  (((st.colls col).filter (fun d => matchesFilter d.fields filt)).take limit).map
    (fun d => ("_id", Val.vOid d.oid) :: d.fields)

/-- Python `str(v)` as applied by the endpoints, which only ever reach the
object-identifier case; the remaining cases follow Python's rendering where
one exists. -/
def valToString : Val → String
  | Val.vStr s => s
  | Val.vNum q => toString q
  | Val.vNull => "None"
  | Val.vOid n => canonicalId n
  | Val.vMap _ => ""

/-- The per-document normalization both list endpoints perform
(src/main.py lines 116-118 and 131-133): if `_id` is present, replace it by
`str` of its value. -/
def stringifyId (r : Record) : Record :=
  match lookupField r "_id" with
  | some v => setField r "_id" (Val.vStr (valToString v))
  | none => r

/-- Guest identity-document type (src/schemas.py line 22). -/
inductive IdType where
  | aadhaar | pan | passport | other
deriving DecidableEq

/-- Literal string of an `IdType`, as pydantic stores and dumps it. -/
def IdType.toStr : IdType → String
  | IdType.aadhaar => "aadhaar"
  | IdType.pan => "pan"
  | IdType.passport => "passport"
  | IdType.other => "other"

/-- Parse a string into the `IdType` enum, `none` when outside the enum. -/
def idTypeOfString (s : String) : Option IdType :=
  if s = "aadhaar" then some IdType.aadhaar
  else if s = "pan" then some IdType.pan
  else if s = "passport" then some IdType.passport
  else if s = "other" then some IdType.other
  else none

/-- A validated Guest (src/schemas.py lines 17-25). -/
structure Guest where
  full_name : String
  phone : Option String := none
  email : Option String := none
  address : Option String := none
  id_type : Option IdType := none
  id_number : Option String := none
  dob : Option String := none
  meta : List (String × Val) := []

/-- Pydantic `model_dump` of a Guest: every declared field, optional fields
dumped as explicit nulls. -/
def Guest.model_dump (g : Guest) : Record :=
  [("full_name", Val.vStr g.full_name),
   ("phone", optStrVal g.phone),
   ("email", optStrVal g.email),
   ("address", optStrVal g.address),
   ("id_type", match g.id_type with
     | some t => Val.vStr t.toStr
     | none => Val.vNull),
   ("id_number", optStrVal g.id_number),
   ("dob", optStrVal g.dob),
   ("meta", Val.vMap g.meta)]

/-- Booking source channel (src/schemas.py line 33). -/
inductive BookingSource where
  | walkin | ota | corporate | phone | website
deriving DecidableEq

/-- Literal string of a `BookingSource`. -/
def BookingSource.toStr : BookingSource → String
  | BookingSource.walkin => "walkin"
  | BookingSource.ota => "ota"
  | BookingSource.corporate => "corporate"
  | BookingSource.phone => "phone"
  | BookingSource.website => "website"

/-- Parse a string into the `BookingSource` enum. -/
def bookingSourceOfString (s : String) : Option BookingSource :=
  if s = "walkin" then some BookingSource.walkin
  else if s = "ota" then some BookingSource.ota
  else if s = "corporate" then some BookingSource.corporate
  else if s = "phone" then some BookingSource.phone
  else if s = "website" then some BookingSource.website
  else none

/-- Booking status (src/schemas.py line 35). -/
inductive BookingStatus where
  | booked | checked_in | checked_out | cancelled
deriving DecidableEq

/-- Literal string of a `BookingStatus`. -/
def BookingStatus.toStr : BookingStatus → String
  | BookingStatus.booked => "booked"
  | BookingStatus.checked_in => "checked_in"
  | BookingStatus.checked_out => "checked_out"
  | BookingStatus.cancelled => "cancelled"

/-- Parse a string into the `BookingStatus` enum. -/
def bookingStatusOfString (s : String) : Option BookingStatus :=
  if s = "booked" then some BookingStatus.booked
  else if s = "checked_in" then some BookingStatus.checked_in
  else if s = "checked_out" then some BookingStatus.checked_out
  else if s = "cancelled" then some BookingStatus.cancelled
  else none

/-- A validated Booking (src/schemas.py lines 27-35). The two datetimes are
kept as their ISO-8601 source strings: no claim depends on datetime
arithmetic, and the code enforces no ordering between them. The rate is a
rational number standing for the JSON numeric value. -/
structure Booking where
  guest_id : String
  room_number : String
  check_in : String
  check_out : String
  rate : ℚ
  source : Option BookingSource := some BookingSource.walkin
  notes : Option String := none
  status : BookingStatus := BookingStatus.booked

/-- Pydantic `model_dump` of a Booking. -/
def Booking.model_dump (b : Booking) : Record :=
  [("guest_id", Val.vStr b.guest_id),
   ("room_number", Val.vStr b.room_number),
   ("check_in", Val.vStr b.check_in),
   ("check_out", Val.vStr b.check_out),
   ("rate", Val.vNum b.rate),
   ("source", match b.source with
     | some s => Val.vStr s.toStr
     | none => Val.vNull),
   ("notes", optStrVal b.notes),
   ("status", Val.vStr b.status.toStr)]

/-- A validated Notification (src/schemas.py lines 45-51); the channel is one
of the `Literal` strings "sms"/"whatsapp", enforced by `mkNotification`. -/
structure Notification where
  channel : String
  «to» : String
  message : String
  status : String := "queued"
  provider : Option String := none
  error : Option String := none

/-- Pydantic `model_dump` of a Notification. -/
def Notification.model_dump (n : Notification) : Record :=
  [("channel", Val.vStr n.channel),
   ("to", Val.vStr n.«to»),
   ("message", Val.vStr n.message),
   ("status", Val.vStr n.status),
   ("provider", optStrVal n.provider),
   ("error", optStrVal n.error)]

/-- Pydantic construction `Notification(channel=..., to=..., message=...)`
(src/main.py line 151): the `Literal` constraint on `channel` is validated,
the remaining fields take their declared defaults (`status = "queued"`). -/
def mkNotification (channel dest message : String) :
    Except (List String) Notification :=
  if channel = "sms" ∨ channel = "whatsapp" then
    Except.ok { channel := channel, «to» := dest, message := message }
  else Except.error ["channel"]

/-- A raw (parsed but not yet validated) request body for a Guest: each
declared field either absent or bound to a JSON value. -/
structure RawGuest where
  full_name : Option Val := none
  phone : Option Val := none
  email : Option Val := none
  address : Option Val := none
  id_type : Option Val := none
  id_number : Option Val := none
  dob : Option Val := none
  meta : Option Val := none

/-- Violations of an optional-string field (pydantic `Optional[str]`):
absent or null is fine, a string is fine, anything else is a type error. -/
def optStrErrs (field : String) : Option Val → List String
  | none => []
  | some Val.vNull => []
  | some (Val.vStr _) => []
  | some _ => [field]

/-- Violations of a required string field (pydantic `str` with `...`):
absent is a missing-field error, a non-string is a type error. -/
def reqStrErrs (field : String) : Option Val → List String
  | some (Val.vStr _) => []
  | _ => [field]

/-- Pydantic validation of a Guest body: the violated fields, in declaration
order, with every violation collected (pydantic reports all field errors of a
model in one `ValidationError`, not just the first). -/
def guestErrs (r : RawGuest) : List String :=
  reqStrErrs "full_name" r.full_name ++
  optStrErrs "phone" r.phone ++
  (match r.email with
    | none => []
    | some Val.vNull => []
    | some (Val.vStr s) => if isValidEmail s then [] else ["email"]
    | some _ => ["email"]) ++
  optStrErrs "address" r.address ++
  (match r.id_type with
    | none => []
    | some Val.vNull => []
    | some (Val.vStr s) => if (idTypeOfString s).isSome then [] else ["id_type"]
    | some _ => ["id_type"]) ++
  optStrErrs "id_number" r.id_number ++
  optStrErrs "dob" r.dob ++
  (match r.meta with
    | none => []
    | some (Val.vMap _) => []
    | some _ => ["meta"])

/-- Extract a required string, with a default only reached on inputs that
`guestErrs`/`bookingErrs` already rejected. -/
def getStrD (v : Option Val) (d : String) : String :=
  match v with
  | some (Val.vStr s) => s
  | _ => d

/-- Extract an optional string (absent and null both become `none`). -/
def getOptStr : Option Val → Option String
  | some (Val.vStr s) => some s
  | _ => none

/-- Build the validated Guest from a raw body that passed `guestErrs`,
applying the declared defaults. -/
def buildGuest (r : RawGuest) : Guest :=
  { full_name := getStrD r.full_name ""
    phone := getOptStr r.phone
    email := getOptStr r.email
    address := getOptStr r.address
    id_type := match r.id_type with
      | some (Val.vStr s) => idTypeOfString s
      | _ => none
    id_number := getOptStr r.id_number
    dob := getOptStr r.dob
    meta := match r.meta with
      | some (Val.vMap m) => m
      | _ => [] }

/-- Pydantic validation of a Guest body: all violated fields on failure, the
validated model on success. -/
def validateGuest (r : RawGuest) : Except (List String) Guest :=
  if guestErrs r = [] then Except.ok (buildGuest r)
  else Except.error (guestErrs r)

/-- A raw (parsed but not yet validated) request body for a Booking. -/
structure RawBooking where
  guest_id : Option Val := none
  room_number : Option Val := none
  check_in : Option Val := none
  check_out : Option Val := none
  rate : Option Val := none
  source : Option Val := none
  notes : Option Val := none
  status : Option Val := none

/-- Pydantic validation of a Booking body: the violated fields in declaration
order, every violation collected. The datetimes accept their ISO-8601 string
form (other datetime encodings are not modelled; no claim depends on them);
`rate` must be a number that is at least 0 (`Field(..., ge=0)`); `source` is
optional with default "walkin"; `status` is non-optional with default
"booked", so an explicit null is rejected for it. -/
def bookingErrs (r : RawBooking) : List String :=
  reqStrErrs "guest_id" r.guest_id ++
  reqStrErrs "room_number" r.room_number ++
  reqStrErrs "check_in" r.check_in ++
  reqStrErrs "check_out" r.check_out ++
  (match r.rate with
    | some (Val.vNum x) => if x < 0 then ["rate"] else []
    | _ => ["rate"]) ++
  (match r.source with
    | none => []
    | some Val.vNull => []
    | some (Val.vStr s) => if (bookingSourceOfString s).isSome then [] else ["source"]
    | some _ => ["source"]) ++
  optStrErrs "notes" r.notes ++
  (match r.status with
    | none => []
    | some (Val.vStr s) => if (bookingStatusOfString s).isSome then [] else ["status"]
    | some _ => ["status"])

/-- Build the validated Booking from a raw body that passed `bookingErrs`,
applying the declared defaults ("walkin", "booked"). -/
def buildBooking (r : RawBooking) : Booking :=
  { guest_id := getStrD r.guest_id ""
    room_number := getStrD r.room_number ""
    check_in := getStrD r.check_in ""
    check_out := getStrD r.check_out ""
    rate := match r.rate with
      | some (Val.vNum x) => x
      | _ => 0
    source := match r.source with
      | none => some BookingSource.walkin
      | some (Val.vStr s) => bookingSourceOfString s
      | _ => none
    notes := getOptStr r.notes
    status := match r.status with
      | some (Val.vStr s) => (bookingStatusOfString s).getD BookingStatus.booked
      | _ => BookingStatus.booked }

/-- Pydantic validation of a Booking body. -/
def validateBooking (r : RawBooking) : Except (List String) Booking :=
  if bookingErrs r = [] then Except.ok (buildBooking r)
  else Except.error (bookingErrs r)

/-- Handler POST /api/guests (src/main.py lines 102-105): store the validated
guest's dump and echo it back with the returned identifier under `_id`. -/
def create_guest (guest : Guest) (st : Store) : Record × Store :=
  let res := create_document "guest" guest.model_dump st
  (("_id", Val.vStr res.1) :: guest.model_dump, res.2)

/-- The filter built by `list_guests` (src/main.py lines 110-113): Python
truthiness of `q` — `None` and the empty string mean no filter; otherwise a
logical OR of exact matches on `phone` and `id_number`. -/
def guestQueryFilter : Option String → QueryFilter
  | some q =>
      if q = "" then QueryFilter.noFilter
      else QueryFilter.orConds [QueryCond.eqStr "phone" q, QueryCond.eqStr "id_number" q]
  | none => QueryFilter.noFilter

/-- Handler GET /api/guests (src/main.py lines 108-119): query with the
optional filter, then convert each document's `_id` to a string. -/
def list_guests (q : Option String) (limit : Nat) (st : Store) : List Record :=
  (get_documents "guest" (guestQueryFilter q) limit st).map stringifyId

/-- Handler POST /api/bookings (src/main.py lines 122-125), receiving the
already-validated Booking. -/
def create_booking (booking : Booking) (st : Store) : Record × Store :=
  let res := create_document "booking" booking.model_dump st
  (("_id", Val.vStr res.1) :: booking.model_dump, res.2)

/-- POST /api/bookings including FastAPI's request validation: the body is
validated against the Booking schema before the handler runs, and a
validation failure is returned with the state untouched (no store access). -/
def create_booking_endpoint (raw : RawBooking) (st : Store) :
    Except (List String) Record × Store :=
  match validateBooking raw with
  | Except.error es => (Except.error es, st)
  | Except.ok b =>
      let res := create_booking b st
      (Except.ok res.1, res.2)

/-- Handler GET /api/bookings (src/main.py lines 128-134): no filter, then
convert each document's `_id` to a string. -/
def list_bookings (limit : Nat) (st : Store) : List Record :=
  (get_documents "booking" QueryFilter.noFilter limit st).map stringifyId

/-- Request body of POST /api/notify (src/main.py lines 140-143): three plain
strings, the channel not yet checked against the Notification enum. -/
structure SendNotificationPayload where
  channel : String
  «to» : String
  message : String

/-- Caller-visible result of POST /api/notify. -/
structure SendResponse where
  status : String
  id : String

/-- Handler POST /api/notify (src/main.py lines 146-154): construct the
Notification model (its `Literal` channel constraint may fail), persist its
dump, then return a response claiming status "sent" ("Simulate immediate
success"). -/
def send_notification (payload : SendNotificationPayload) (st : Store) :
    Except (List String) (SendResponse × Store) :=
  match mkNotification payload.channel payload.«to» payload.message with
  | Except.error es => Except.error es
  | Except.ok notif =>
      let res := create_document "notification" notif.model_dump st
      Except.ok ({ status := "sent", id := res.1 }, res.2)

/-- An uploaded file as the OCR endpoint sees it: its file name and content
type (the bytes are never read by the code). -/
structure UploadedFile where
  filename : String
  content_type : Option String := none

/-- Response model of POST /api/ocr (src/main.py lines 68-73). -/
structure OCRResult where
  id_type : Option String := none
  id_number : Option String := none
  full_name : Option String := none
  dob : Option String := none
  raw_text : Option String := none
deriving DecidableEq

/-- Python `file.filename.lower().endswith((".jpg", ".png", ".jpeg"))`
(src/main.py line 91). -/
def hasImageExt (s : String) : Bool :=
  endsWithStr (lowerStr s) ".jpg" || endsWithStr (lowerStr s) ".png" ||
  endsWithStr (lowerStr s) ".jpeg"

/-- The audit record POST /api/ocr persists (src/main.py lines 82-87): the
dict literal with `file_name`, empty `extracted`, null `raw_text`, then the
metadata keys merged in; `now` stands for `datetime.utcnow().isoformat()`. -/
def ocrAuditRecord (file : UploadedFile) (now : String) : Record :=
  [("file_name", Val.vStr file.filename),
   ("extracted", Val.vMap []),
   ("raw_text", Val.vNull),
   ("filename", Val.vStr file.filename),
   ("content_type", optStrVal file.content_type),
   ("received_at", Val.vStr now)]

/-- Handler POST /api/ocr (src/main.py lines 76-96): persist the audit record,
then return the mocked extraction, whose `id_type` depends on the uploaded
file name's extension. -/
def ocr_extract (file : UploadedFile) (now : String) (st : Store) :
    OCRResult × Store :=
  let res := create_document "iddocument" (ocrAuditRecord file now) st
  ({ id_type := some (if hasImageExt file.filename then "aadhaar" else "pan"),
     id_number := some "XXXX-XXXX-1234",
     full_name := some "Sample Guest",
     dob := some "1990-01-01",
     raw_text := some "Mocked OCR content" }, res.2)

/-- The live database handle as GET /test observes it: its name when the
driver exposes one, and the outcome of `list_collection_names()` — either the
collection names or the message of the exception it raised. -/
structure DbConn where
  name : Option String
  listCollectionNamesResult : Except String (List String)

/-- Response of GET /test (src/main.py lines 31-38). -/
structure TestResponse where
  backend : String
  database : String
  database_url : Option String
  database_name : Option String
  connection_status : String
  collections : List String
deriving DecidableEq

/-- Handler GET /test (src/main.py lines 28-62): a total function — every
failure of the storage layer is caught and described inside the response,
never raised. `db` is `none` when no handle was initialized; the two booleans
are the presence of the DATABASE_URL and DATABASE_NAME environment
variables. -/
def test_database (db : Option DbConn) (envUrlSet envNameSet : Bool) :
    TestResponse :=
  let r0 : TestResponse :=
    { backend := "✅ Running", database := "❌ Not Available",
      database_url := none, database_name := none,
      connection_status := "Not Connected", collections := [] }
  let r1 :=
    match db with
    | some d =>
        let r :=
          { r0 with database := "✅ Available",
                    database_url := some "✅ Configured",
                    database_name := some (d.name.getD "✅ Connected"),
                    connection_status := "Connected" }
        match d.listCollectionNamesResult with
        | Except.ok cols =>
            { r with collections := cols.take 10,
                     database := "✅ Connected & Working" }
        | Except.error e =>
            { r with database := "⚠️  Connected but Error: " ++ truncStr 50 e }
    | none => { r0 with database := "⚠️  Available but not initialized" }
  { r1 with
      database_url := some (if envUrlSet then "✅ Set" else "❌ Not Set"),
      database_name := some (if envNameSet then "✅ Set" else "❌ Not Set") }

/-- A concrete Guest body violating four constraints at once: the required
`full_name` is missing, `phone` has the wrong type, `email` is malformed and
`id_type` is outside the enum. Used to witness the error-aggregation
theorem. -/
def badGuestBody : RawGuest :=
  { phone := some (Val.vNum 7)
    email := some (Val.vStr "not-an-email")
    id_type := some (Val.vStr "license") }

/-- A concrete Booking body whose rate is negative. -/
def negRateBody : RawBooking := { rate := some (Val.vNum (-1)) }

/-- A concrete connected database handle whose collection listing raises. -/
def failingConn : DbConn :=
  { name := some "hotel"
    listCollectionNamesResult := Except.error "boom" }

/-- A concrete store holding two guests with distinct phone numbers, used to
witness the query-filter theorem. -/
def twoGuestStore : Store :=
  { nextId := 2
    colls := fun c =>
      if c = "guest" then
        [{ oid := 0, fields := [("phone", Val.vStr "p1")] },
         { oid := 1, fields := [("phone", Val.vStr "p2")] }]
      else [] }

/-- Decimal digit characters decode back to their digit value. -/
theorem char_digit_toNat (d : Nat) (hd : d < 10) :
    (Char.ofNat (48 + d)).toNat = 48 + d := by
  interval_cases d <;> decide

/-- Decoding is a left inverse of the canonical identifier rendering. -/
theorem decodeId_canonicalId (n : Nat) : decodeId (canonicalId n) = n := by
  unfold canonicalId
  by_cases h : n = 0
  · subst h
    decide
  · rw [if_neg h]
    show Nat.ofDigits 10
      ((((Nat.digits 10 n).reverse.map (fun d => Char.ofNat (48 + d))).reverse).map
        (fun c => c.toNat - 48)) = n
    rw [← List.map_reverse, List.reverse_reverse, List.map_map]
    have hcongr : (Nat.digits 10 n).map
        ((fun c => c.toNat - 48) ∘ (fun d => Char.ofNat (48 + d)))
        = (Nat.digits 10 n).map id := by
      refine List.map_congr_left ?_
      intro d hd
      have h10 : d < 10 := Nat.digits_lt_base (by norm_num) hd
      simp [Function.comp, char_digit_toNat d h10]
    rw [hcongr, List.map_id, Nat.ofDigits_digits]

/-- Distinct native identifiers have distinct canonical string forms. -/
theorem canonicalId_injective : Function.Injective canonicalId :=
  Function.LeftInverse.injective decodeId_canonicalId

/-- Stringifying a document as returned by the store rewrites exactly its
`_id` to the canonical string form and leaves every other field binding
untouched. -/
theorem stringifyId_prepend (oid : Nat) (fields : Record) :
    stringifyId (("_id", Val.vOid oid) :: fields)
      = ("_id", Val.vStr (canonicalId oid)) :: fields := rfl

/-- GET /api/guests returns, for any query, the matching stored documents in
order (up to the limit), each with its `_id` replaced by the canonical string
of its native identifier and its other fields unchanged. -/
theorem list_guests_eq (q : Option String) (limit : Nat) (st : Store) :
    list_guests q limit st
      = (((st.colls "guest").filter
            (fun d => matchesFilter d.fields (guestQueryFilter q))).take limit).map
          (fun d => ("_id", Val.vStr (canonicalId d.oid)) :: d.fields) := by
  unfold list_guests get_documents
  rw [List.map_map]
  exact List.map_congr_left (fun d _ => stringifyId_prepend d.oid d.fields)

/-- GET /api/bookings returns the stored documents in order (up to the
limit), each with its `_id` replaced by the canonical string of its native
identifier and its other fields unchanged. -/
theorem list_bookings_eq (limit : Nat) (st : Store) :
    list_bookings limit st
      = ((st.colls "booking").take limit).map
          (fun d => ("_id", Val.vStr (canonicalId d.oid)) :: d.fields) := by
  unfold list_bookings get_documents
  rw [List.map_map]
  have hfilt : (st.colls "booking").filter
      (fun d => matchesFilter d.fields QueryFilter.noFilter) = st.colls "booking" := by
    simp [matchesFilter]
  rw [hfilt]
  exact List.map_congr_left (fun d _ => stringifyId_prepend d.oid d.fields)

/-- A true equality condition is exactly presence of the field with that
string value. -/
theorem matchCond_eq_true_iff (fields : Record) (f v : String) :
    matchCond fields (QueryCond.eqStr f v) = true ↔
      lookupField fields f = some (Val.vStr v) := by
  rcases h : lookupField fields f with _ | w
  · simp [matchCond, h]
  · cases w <;> simp [matchCond, h, beq_iff_eq]

/-- C8: every document-extraction request persists exactly one IdDocument
audit record, unconditionally: for every uploaded file, receipt time and
prior store state, the iddocument collection after the operation is the prior
collection plus the audit record (so no extraction outcome can prevent it —
the record is written before the mocked extraction result is produced). -/
theorem ocr_extract_always_persists_audit (file : UploadedFile) (now : String)
    (st : Store) :
    (ocr_extract file now st).2.colls "iddocument"
      = st.colls "iddocument"
        ++ [{ oid := st.nextId, fields := ocrAuditRecord file now }] := by
  simp [ocr_extract, create_document]

/-- C10: the IdDocument audit record persisted by the document-extraction
operation always has an empty `extracted` mapping and a null `raw_text`, and
its keys are exactly the file metadata keys — none of the mocked extraction
fields are written to the store. -/
theorem ocr_audit_record_has_no_extraction (file : UploadedFile) (now : String)
    (st : Store) :
    (ocr_extract file now st).2.colls "iddocument"
        = st.colls "iddocument"
          ++ [{ oid := st.nextId, fields := ocrAuditRecord file now }]
      ∧ lookupField (ocrAuditRecord file now) "extracted" = some (Val.vMap [])
      ∧ lookupField (ocrAuditRecord file now) "raw_text" = some Val.vNull
      ∧ (ocrAuditRecord file now).map Prod.fst
          = ["file_name", "extracted", "raw_text",
             "filename", "content_type", "received_at"] := by
  refine ⟨by simp [ocr_extract, create_document], rfl, rfl, rfl⟩

/-- C9 counterexample: the OCR stub's output is not independent of the
uploaded file — two uploads differing only in file extension receive
different extracted fields (`id_type` "aadhaar" for the .jpg upload, "pan"
for the .pdf upload). -/
theorem ocr_stub_depends_on_input :
    (ocr_extract { filename := "scan.jpg" } "2024-01-01T00:00:00" emptyStore).1
      ≠ (ocr_extract { filename := "scan.pdf" } "2024-01-01T00:00:00" emptyStore).1 := by
  decide

/-- C9 amended: all extracted fields except `id_type` are fixed regardless of
input, and the whole output depends on nothing but the uploaded file's name:
two requests with the same file name receive identical extraction results,
whatever their content types, receipt times and store states. -/
theorem ocr_stub_fixed_except_id_type (f1 f2 : UploadedFile) (n1 n2 : String)
    (s1 s2 : Store) :
    (ocr_extract f1 n1 s1).1.id_number = (ocr_extract f2 n2 s2).1.id_number
      ∧ (ocr_extract f1 n1 s1).1.full_name = (ocr_extract f2 n2 s2).1.full_name
      ∧ (ocr_extract f1 n1 s1).1.dob = (ocr_extract f2 n2 s2).1.dob
      ∧ (ocr_extract f1 n1 s1).1.raw_text = (ocr_extract f2 n2 s2).1.raw_text
      ∧ (f1.filename = f2.filename →
          (ocr_extract f1 n1 s1).1 = (ocr_extract f2 n2 s2).1) := by
  refine ⟨rfl, rfl, rfl, rfl, fun h => ?_⟩
  simp [ocr_extract, h]

/-- Witness for the amended C9 theorem at two concrete requests sharing a
file name. -/
theorem ocr_stub_fixed_except_id_type_witness :
    ({ filename := "a.png", content_type := some "image/png" } : UploadedFile).filename
        = ({ filename := "a.png" } : UploadedFile).filename
      ∧ (ocr_extract { filename := "a.png", content_type := some "image/png" }
            "2024-01-01T00:00:00" emptyStore).1
          = (ocr_extract { filename := "a.png" } "2024-02-02T00:00:00" emptyStore).1 :=
  ⟨rfl, (ocr_stub_fixed_except_id_type
      { filename := "a.png", content_type := some "image/png" } { filename := "a.png" }
      "2024-01-01T00:00:00" "2024-02-02T00:00:00" emptyStore emptyStore).2.2.2.2 rfl⟩

/-- C6: guest creation is not idempotent: creating the same valid guest twice
appends two distinct documents whose native identifiers differ, the two
caller-visible identifiers are distinct strings, and no identifier is reused
(the counter strictly grows). -/
theorem create_guest_twice_distinct (g : Guest) (st : Store) :
    (create_guest g (create_guest g st).2).2.colls "guest"
        = st.colls "guest"
          ++ [{ oid := st.nextId, fields := g.model_dump },
              { oid := st.nextId + 1, fields := g.model_dump }]
      ∧ (create_guest g st).1
          = ("_id", Val.vStr (canonicalId st.nextId)) :: g.model_dump
      ∧ (create_guest g (create_guest g st).2).1
          = ("_id", Val.vStr (canonicalId (st.nextId + 1))) :: g.model_dump
      ∧ canonicalId st.nextId ≠ canonicalId (st.nextId + 1)
      ∧ (create_guest g (create_guest g st).2).2.nextId = st.nextId + 2 := by
  refine ⟨by simp [create_guest, create_document], rfl, rfl, ?_, rfl⟩
  exact fun h => Nat.succ_ne_self st.nextId (canonicalId_injective h).symm

/-- C5: every record returned by the list endpoints carries its identifier as
`canonicalId` of the document's native identifier — the very string form the
create operations return for the document they store — with all other fields
returned unchanged from the stored record: the list endpoints equal the
stored documents (filtered/limited) with only `_id` rewritten, and the create
endpoints return `canonicalId` of the native identifier under which the dump
is stored. -/
theorem list_records_carry_canonical_ids (limit : Nat) (st : Store) :
    (∀ q, list_guests q limit st
        = (((st.colls "guest").filter
              (fun d => matchesFilter d.fields (guestQueryFilter q))).take limit).map
            (fun d => ("_id", Val.vStr (canonicalId d.oid)) :: d.fields))
      ∧ (list_bookings limit st
          = ((st.colls "booking").take limit).map
              (fun d => ("_id", Val.vStr (canonicalId d.oid)) :: d.fields))
      ∧ (∀ g : Guest,
          (create_guest g st).1
              = ("_id", Val.vStr (canonicalId st.nextId)) :: g.model_dump
            ∧ (create_guest g st).2.colls "guest"
                = st.colls "guest" ++ [{ oid := st.nextId, fields := g.model_dump }])
      ∧ (∀ b : Booking,
          (create_booking b st).1
              = ("_id", Val.vStr (canonicalId st.nextId)) :: b.model_dump
            ∧ (create_booking b st).2.colls "booking"
                = st.colls "booking" ++ [{ oid := st.nextId, fields := b.model_dump }]) :=
  ⟨fun q => list_guests_eq q limit st,
   list_bookings_eq limit st,
   fun g => ⟨rfl, by simp [create_guest, create_document]⟩,
   fun b => ⟨rfl, by simp [create_booking, create_document]⟩⟩

/-- C2: with a non-empty query string, GET /api/guests returns exactly the
guests whose `phone` or `id_number` equals the query (sound: every returned
record matches; complete up to the limit: every matching stored document is
returned when the matches fit in the limit), and with an absent or empty
query no filter is applied — the records are returned subject only to the
limit. -/
theorem list_guests_query_filters_exactly (q : String) (hq : q ≠ "")
    (limit : Nat) (st : Store) :
    (∀ r ∈ list_guests (some q) limit st,
        lookupField r "phone" = some (Val.vStr q)
          ∨ lookupField r "id_number" = some (Val.vStr q))
      ∧ (((st.colls "guest").filter
            (fun d => matchCond d.fields (QueryCond.eqStr "phone" q)
              || matchCond d.fields (QueryCond.eqStr "id_number" q))).length ≤ limit →
          ∀ d ∈ st.colls "guest",
            lookupField d.fields "phone" = some (Val.vStr q)
              ∨ lookupField d.fields "id_number" = some (Val.vStr q) →
            ("_id", Val.vStr (canonicalId d.oid)) :: d.fields
              ∈ list_guests (some q) limit st)
      ∧ list_guests none limit st
          = ((st.colls "guest").take limit).map
              (fun d => ("_id", Val.vStr (canonicalId d.oid)) :: d.fields)
      ∧ list_guests (some "") limit st
          = ((st.colls "guest").take limit).map
              (fun d => ("_id", Val.vStr (canonicalId d.oid)) :: d.fields) := by
  have hfilt : guestQueryFilter (some q)
      = QueryFilter.orConds [QueryCond.eqStr "phone" q, QueryCond.eqStr "id_number" q] := by
    simp [guestQueryFilter, hq]
  have hmatch : ∀ fields : Record,
      matchesFilter fields (guestQueryFilter (some q))
        = (matchCond fields (QueryCond.eqStr "phone" q)
            || matchCond fields (QueryCond.eqStr "id_number" q)) := by
    intro fields
    rw [hfilt]
    simp [matchesFilter]
  refine ⟨?_, ?_, ?_, ?_⟩
  · intro r hr
    rw [list_guests_eq] at hr
    obtain ⟨d, hd, rfl⟩ := List.mem_map.mp hr
    have hd' : matchesFilter d.fields (guestQueryFilter (some q)) = true :=
      (List.mem_filter.mp (List.mem_of_mem_take hd)).2
    rw [hmatch] at hd'
    have hid1 : ("_id" : String) ≠ "phone" := by decide
    have hid2 : ("_id" : String) ≠ "id_number" := by decide
    rcases Bool.or_eq_true_iff.mp hd' with h1 | h2
    · exact Or.inl (by
        rw [lookupField, if_neg hid1]
        exact (matchCond_eq_true_iff d.fields "phone" q).mp h1)
    · exact Or.inr (by
        rw [lookupField, if_neg hid2]
        exact (matchCond_eq_true_iff d.fields "id_number" q).mp h2)
  · intro hlen d hd hdq
    rw [list_guests_eq]
    have hpred : matchesFilter d.fields (guestQueryFilter (some q)) = true := by
      rw [hmatch]
      rcases hdq with h1 | h2
      · exact Bool.or_eq_true_iff.mpr
          (Or.inl ((matchCond_eq_true_iff d.fields "phone" q).mpr h1))
      · exact Bool.or_eq_true_iff.mpr
          (Or.inr ((matchCond_eq_true_iff d.fields "id_number" q).mpr h2))
    have hsame : (st.colls "guest").filter
        (fun d => matchesFilter d.fields (guestQueryFilter (some q)))
        = (st.colls "guest").filter
            (fun d => matchCond d.fields (QueryCond.eqStr "phone" q)
              || matchCond d.fields (QueryCond.eqStr "id_number" q)) := by
      exact List.filter_congr (fun d _ => hmatch d.fields)
    rw [hsame, List.take_of_length_le hlen]
    exact List.mem_map_of_mem _
      (List.mem_filter.mpr ⟨hd, by rw [← hmatch d.fields]; exact hpred⟩)
  · rw [list_guests_eq]
    simp [guestQueryFilter, matchesFilter]
  · rw [list_guests_eq]
    simp [guestQueryFilter, matchesFilter]

/-- Witness for C2 at the concrete query "p1" against a two-guest store. -/
theorem list_guests_query_filters_exactly_witness :
    ("p1" : String) ≠ ""
      ∧ ∀ r ∈ list_guests (some "p1") 25 twoGuestStore,
          lookupField r "phone" = some (Val.vStr "p1")
            ∨ lookupField r "id_number" = some (Val.vStr "p1") :=
  ⟨by decide, (list_guests_query_filters_exactly "p1" (by decide) 25 twoGuestStore).1⟩

/-- C3: a Booking body whose rate is negative is rejected by validation with
an error citing the `rate` field, before any store access: the state is
returned unchanged, so a subsequent GET /api/bookings sees exactly what it
saw before. -/
theorem create_booking_negative_rate_rejected (raw : RawBooking) (st : Store)
    (x : ℚ) (hr : raw.rate = some (Val.vNum x)) (hx : x < 0) :
    (∃ es, (create_booking_endpoint raw st).1 = Except.error es ∧ "rate" ∈ es)
      ∧ (create_booking_endpoint raw st).2 = st
      ∧ ∀ limit, list_bookings limit (create_booking_endpoint raw st).2
          = list_bookings limit st := by
  have hmem : "rate" ∈ bookingErrs raw := by
    unfold bookingErrs
    rw [hr]
    simp [hx]
  have hne : bookingErrs raw ≠ [] := by
    intro h0
    rw [h0] at hmem
    exact List.not_mem_nil _ hmem
  have hval : validateBooking raw = Except.error (bookingErrs raw) := by
    unfold validateBooking
    rw [if_neg hne]
  have hend : create_booking_endpoint raw st = (Except.error (bookingErrs raw), st) := by
    unfold create_booking_endpoint
    rw [hval]
  rw [hend]
  exact ⟨⟨bookingErrs raw, rfl, hmem⟩, rfl, fun _ => rfl⟩

/-- Witness for C3 at the concrete Booking body with rate -1 against the
empty store. -/
theorem create_booking_negative_rate_rejected_witness :
    (negRateBody.rate = some (Val.vNum (-1)))
      ∧ ((-1 : ℚ) < 0)
      ∧ (∃ es, (create_booking_endpoint negRateBody emptyStore).1
          = Except.error es ∧ "rate" ∈ es) :=
  ⟨rfl, by norm_num,
   (create_booking_negative_rate_rejected negRateBody
     emptyStore (-1) rfl (by norm_num)).1⟩

/-- C4: the health query is a total function of the observed storage state —
it returns a response for every state (unconfigured, unreachable or failing)
rather than raising — its collection list never exceeds 10 entries, and a
failing collection listing is described inline in the `database` field
(truncated exception text) instead of propagating. -/
theorem test_database_never_fails (db : Option DbConn) (u v : Bool) :
    (test_database db u v).collections.length ≤ 10
      ∧ (∀ d e, db = some d → d.listCollectionNamesResult = Except.error e →
          (test_database db u v).database
            = "⚠️  Connected but Error: " ++ truncStr 50 e) := by
  constructor
  · rcases db with _ | d
    · simp [test_database]
    · rcases hc : d.listCollectionNamesResult with e | cols
      · simp [test_database, hc]
      · simp [test_database, hc]
  · intro d e hdb hce
    subst hdb
    simp [test_database, hce]

/-- Witness for C4 at a connected handle whose collection listing raises. -/
theorem test_database_never_fails_witness :
    (test_database (some failingConn) false false).collections.length ≤ 10
      ∧ (test_database (some failingConn) false false).database
          = "⚠️  Connected but Error: " ++ truncStr 50 "boom" :=
  ⟨(test_database_never_fails (some failingConn) false false).1,
   (test_database_never_fails (some failingConn) false false).2
     failingConn "boom" rfl rfl⟩

/-- C1 counterexample: the claim that the caller-visible result of a
notification send never asserts status "sent" is false at a concrete valid
request — the handler answers with status "sent" (which differs from
"queued") even though no provider is wired. -/
theorem send_notification_reports_sent :
    ((send_notification { channel := "sms", «to» := "+15550001111", message := "hello" }
        emptyStore).toOption.map (fun x => x.1.status)) = some "sent"
      ∧ "sent" ≠ "queued" :=
  ⟨rfl, by decide⟩

/-- C1 amended: for every notification-send request with a valid channel, the
operation persists a Notification record whose stored status is "queued", but
the caller-visible result asserts status "sent" (simulated success), pairing
it with the new record's identifier. -/
theorem send_notification_queues_record_but_reports_sent
    (p : SendNotificationPayload) (st : Store)
    (h : p.channel = "sms" ∨ p.channel = "whatsapp") :
    ∃ rec : Record,
      send_notification p st
          = Except.ok ({ status := "sent", id := canonicalId st.nextId },
              { nextId := st.nextId + 1,
                colls := fun c =>
                  if c = "notification" then
                    st.colls c ++ [{ oid := st.nextId, fields := rec }]
                  else st.colls c })
        ∧ lookupField rec "status" = some (Val.vStr "queued")
        ∧ lookupField rec "channel" = some (Val.vStr p.channel)
        ∧ lookupField rec "to" = some (Val.vStr p.«to»)
        ∧ lookupField rec "message" = some (Val.vStr p.message) := by
  refine ⟨Notification.model_dump
    { channel := p.channel, «to» := p.«to», message := p.message }, ?_, rfl, rfl, rfl, rfl⟩
  unfold send_notification mkNotification
  rw [if_pos h]
  rfl

/-- Witness for the amended C1 theorem at a concrete SMS request against the
empty store. -/
theorem send_notification_queues_record_but_reports_sent_witness :
    (("sms" : String) = "sms" ∨ ("sms" : String) = "whatsapp")
      ∧ ∃ rec : Record,
        send_notification { channel := "sms", «to» := "+15550001111", message := "hello" }
            emptyStore
            = Except.ok ({ status := "sent", id := canonicalId emptyStore.nextId },
                { nextId := emptyStore.nextId + 1,
                  colls := fun c =>
                    if c = "notification" then
                      emptyStore.colls c ++ [{ oid := emptyStore.nextId, fields := rec }]
                    else emptyStore.colls c })
          ∧ lookupField rec "status" = some (Val.vStr "queued")
          ∧ lookupField rec "channel" = some (Val.vStr "sms")
          ∧ lookupField rec "to" = some (Val.vStr "+15550001111")
          ∧ lookupField rec "message" = some (Val.vStr "hello") :=
  ⟨Or.inl rfl,
   send_notification_queues_record_but_reports_sent
     { channel := "sms", «to» := "+15550001111", message := "hello" }
     emptyStore (Or.inl rfl)⟩

/-- C7: validation reports every violated field constraint together, not just
the first: whenever a constraint of any of the five kinds is violated
(required field missing, wrong type, value outside the enum, numeric below
its minimum, malformed email), the corresponding field appears in the error
list — simultaneously for all violated fields of one input — and the
resulting ValidationError carries exactly that full list. -/
theorem validation_reports_every_violation (rg : RawGuest) (rb : RawBooking) :
    (rg.full_name = none → "full_name" ∈ guestErrs rg)
      ∧ (∀ w, rg.phone = some w → w ≠ Val.vNull → (∀ s, w ≠ Val.vStr s) →
          "phone" ∈ guestErrs rg)
      ∧ (∀ s, rg.email = some (Val.vStr s) → isValidEmail s = false →
          "email" ∈ guestErrs rg)
      ∧ (∀ s, rg.id_type = some (Val.vStr s) → idTypeOfString s = none →
          "id_type" ∈ guestErrs rg)
      ∧ (∀ x, rb.rate = some (Val.vNum x) → x < 0 → "rate" ∈ bookingErrs rb)
      ∧ (rb.guest_id = none → "guest_id" ∈ bookingErrs rb)
      ∧ (guestErrs rg ≠ [] → validateGuest rg = Except.error (guestErrs rg))
      ∧ (bookingErrs rb ≠ [] → validateBooking rb = Except.error (bookingErrs rb)) := by
  refine ⟨?_, ?_, ?_, ?_, ?_, ?_, ?_, ?_⟩
  · intro h
    simp [guestErrs, reqStrErrs, h]
  · intro w hw hnull hnstr
    rcases w with s | x | _ | n | m
    · exact absurd rfl (hnstr s)
    · simp [guestErrs, optStrErrs, hw]
    · exact absurd rfl hnull
    · simp [guestErrs, optStrErrs, hw]
    · simp [guestErrs, optStrErrs, hw]
  · intro s hs hbad
    simp [guestErrs, hs, hbad]
  · intro s hs hbad
    simp [guestErrs, hs, hbad]
  · intro x hx hneg
    unfold bookingErrs
    rw [hx]
    simp [hneg]
  · intro h
    simp [bookingErrs, reqStrErrs, h]
  · intro h
    unfold validateGuest
    rw [if_neg h]
  · intro h
    unfold validateBooking
    rw [if_neg h]

/-- Witness for C7 at one Guest body violating four constraints at once
(missing required field, wrong type, malformed email, value outside the
enum) and one Booking body with a negative rate: all violations appear in
the single reported list. -/
theorem validation_reports_every_violation_witness :
    ("full_name" ∈ guestErrs badGuestBody)
      ∧ ("phone" ∈ guestErrs badGuestBody)
      ∧ ("email" ∈ guestErrs badGuestBody)
      ∧ ("id_type" ∈ guestErrs badGuestBody)
      ∧ ("rate" ∈ bookingErrs negRateBody)
      ∧ validateGuest badGuestBody = Except.error (guestErrs badGuestBody) :=
  ⟨(validation_reports_every_violation badGuestBody negRateBody).1 rfl,
   (validation_reports_every_violation badGuestBody negRateBody).2.1
     (Val.vNum 7) rfl (fun h => Val.noConfusion h) (fun s h => Val.noConfusion h),
   (validation_reports_every_violation badGuestBody negRateBody).2.2.1
     "not-an-email" rfl (by decide),
   (validation_reports_every_violation badGuestBody negRateBody).2.2.2.1
     "license" rfl rfl,
   (validation_reports_every_violation badGuestBody negRateBody).2.2.2.2.1
     (-1) rfl (by norm_num),
   (validation_reports_every_violation badGuestBody negRateBody).2.2.2.2.2.2.1
     (by decide)⟩
